import Mathlib

/-!
Verification of the FinSight transaction-normalization pipeline.

Shallow embedding of the pipeline code (src/main.py, src/ai_categorizer.py,
src/db/db_loader.py) into Lean 4. Network calls and the database are modelled
as explicit oracle arguments; pandas dataframes become lists of rows whose
cells are either a string or a missing value (NaN); Python floats on the
amount paths are modelled as rationals, with the NaN value represented by
Option.none. Fallible Python code (KeyError, ValueError, bare except) becomes
Except values.
-/

namespace FinSight

/-! ## Basic cell and dataframe model -/

/-- A dataframe cell: a string value, or the missing value (pandas NaN). -/
inductive CellVal where
  | str (s : String)
  | na
deriving DecidableEq, Repr

/-- A dataframe row: an association list from column name to cell. -/
abbrev Row := List (String × CellVal)

/-- A dataframe: its column set plus its rows. -/
structure Df where
  cols : List String
  rows : List Row
deriving Repr

/-- Cell access within a row; a column absent from the row reads as NaN
(column existence is checked at the dataframe level, mirroring pandas). -/
def getCell (r : Row) (c : String) : CellVal :=
  (r.lookup c).getD .na

/-- Python str() applied to a cell: NaN prints as "nan". -/
def cellStr : CellVal → String
  | .str s => s
  | .na => "nan"

/-! ## Character-level string primitives

The embedding works on the character lists underlying strings, so that every
definition evaluates by kernel reduction on concrete inputs. -/

/-- ASCII lower-casing of one character (the case folding Python lower()
performs on the ASCII descriptions the pipeline handles). -/
def charToLower (c : Char) : Char :=
  if 65 ≤ c.toNat ∧ c.toNat ≤ 90 then Char.ofNat (c.toNat + 32) else c

/-- Python lower() on a string. -/
def strLower (s : String) : String :=
  ⟨s.data.map charToLower⟩

/-- Leading- and trailing-whitespace removal on a character list. -/
def listTrim (l : List Char) : List Char :=
  ((l.dropWhile (fun c => c.isWhitespace)).reverse.dropWhile
    (fun c => c.isWhitespace)).reverse

/-- Python strip() on a string. -/
def strTrim (s : String) : String :=
  ⟨listTrim s.data⟩

/-- Python replace(",", "") on a string. -/
def stripCommas (s : String) : String :=
  ⟨s.data.filter (fun c => c ≠ ',')⟩

/-- Split of a character list at every occurrence of a separator character
(the semantics of Python split(sep) for a one-character separator). -/
def splitList (sep : Char) : List Char → List (List Char)
  | [] => [[]]
  | c :: cs =>
    let r := splitList sep cs
    if c = sep then [] :: r
    else
      match r with
      | [] => [[c]]
      | h :: t => (c :: h) :: t

/-! ## Numeric parsing (the decimal fragment of Python float()) -/

/-- Value of a digit string, most significant digit first. -/
def natOfDigits (cs : List Char) : ℕ :=
  cs.foldl (fun n c => 10 * n + (c.toNat - 48)) 0

/-- Unsigned decimal literal: digits, optionally digits.digits with either
side (but not both) empty. -/
def parseUnsigned (body : List Char) : Option ℚ :=
  match splitList '.' body with
  | [i] =>
    if i.length > 0 && i.all (fun c => c.isDigit) then
      some (natOfDigits i)
    else none
  | [i, f] =>
    if i.all (fun c => c.isDigit) && f.all (fun c => c.isDigit)
        && (i.length + f.length > 0) then
      some ((natOfDigits i : ℚ) + (natOfDigits f : ℚ) / (10 : ℚ) ^ f.length)
    else none
  | _ => none

/-- Errors raised inside normalize: a missing column (pandas KeyError), an
unparseable numeric string (ValueError from astype(float)), or the
unsupported-format ValueError of the final else branch. -/
inductive NormErr where
  | keyError (col : String)
  | valueError (s : String)
  | unsupported (source : String)
deriving DecidableEq, Repr

/-- Python float() on the decimal fragment used by the pipeline: returns the
NaN value (modelled none) for a "nan" literal, a rational for a signed
decimal literal, and raises ValueError otherwise. -/
def pyFloat (s : String) : Except NormErr (Option ℚ) :=
  let t := listTrim s.data
  let low := t.map charToLower
  if low = "nan".data || low = "-nan".data || low = "+nan".data then .ok none
  else
    let sgn : ℚ := if t.head? = some '-' then -1 else 1
    let body := if t.head? = some '-' || t.head? = some '+' then t.tail else t
    match parseUnsigned body with
    | some q => .ok (some (sgn * q))
    | none => .error (.valueError s)

/-! ## Exclusion filter and vendor rules (src/main.py) -/

/-- Substring containment, the semantics of the Python `in` operator on
strings. -/
def strContains (hay needle : String) : Bool :=
  (List.range (hay.data.length + 1)).any
    (fun i => needle.data.isPrefixOf (hay.data.drop i))

/-- Embeds should_exclude: str(description).lower() contains some keyword of
the loaded exclusion list. -/
def should_exclude (kws : List String) (v : CellVal) : Bool :=
  kws.any (fun k => strContains (strLower (cellStr v)) k)

/-- The VENDOR_MAP table of src/main.py, in its source (insertion) order. -/
def VENDOR_MAP : List (String × String) :=
  [("netflix", "Subscription"),
   ("spotify", "Subscription"),
   ("uber", "Transport"),
   ("amazon", "Shopping"),
   ("walmart", "Groceries")]

/-- Embeds tag_vendor: first VENDOR_MAP entry, in table order, whose key is a
substring of the lower-cased description. -/
def tag_vendor (description : String) : Option String :=
  (VENDOR_MAP.find? (fun p => strContains (strLower description) p.1)).map
    (fun p => p.2)

/-! ## Remote categorization (src/main.py ai_categorize,
src/ai_categorizer.py categorize_transaction) -/

/-- Outcome of an HTTP request that returned at all: its status code and the
result of extracting the "response" field from its JSON body. Except.error
models a body that is not valid JSON (resp.json() raises); Except.ok none
models valid JSON with no "response" key. A request that raised instead
(timeout, connection error) is modelled as Option.none at the call sites. -/
structure HttpResp where
  status : ℕ
  jsonResponse : Except Unit (Option String)
deriving Repr

/-- The remote leg of ai_categorize (src/main.py lines 50-61): any exception
yields the sentinel; otherwise the whole "response" value, stripped, with the
sentinel as the default for a missing key. The HTTP status is never examined. -/
def ai_remote : Option HttpResp → String
  | none => "Uncategorized"
  | some r =>
    match r.jsonResponse with
    | .error _ => "Uncategorized"
    | .ok o => strTrim (o.getD "Uncategorized")

/-- Embeds ai_categorize: correction memory (FEEDBACK_TAGS) first, then the
remote call. The feedback dictionary is passed explicitly; the network
outcome is the oracle argument r. -/
def ai_categorize (feedback : List (String × String)) (description : String)
    (r : Option HttpResp) : String :=
  match feedback.lookup description with
  | some t => t
  | none => ai_remote r

/-- Python truthiness of `a or b` for an optional string a: None and the
empty string both fall through to b. -/
def pyOr (a : Option String) (b : String) : String :=
  match a with
  | some s => if s = "" then b else s
  | none => b

/-- Embeds get_category: tag_vendor(description) or ai_categorize(description). -/
def get_category (feedback : List (String × String)) (r : Option HttpResp)
    (description : String) : String :=
  pyOr (tag_vendor description) (ai_categorize feedback description r)

/-- First whitespace-delimited token of a string, if any (Python
s.split()[0], where split() discards empty fields): the first maximal run of
non-whitespace characters. -/
def firstToken (s : String) : Option String :=
  match (s.data.dropWhile (fun c => c.isWhitespace)).takeWhile
      (fun c => !c.isWhitespace) with
  | [] => none
  | t => some ⟨t⟩

/-- Embeds categorize_transaction of src/ai_categorizer.py:
raise_for_status() turns any 4xx/5xx into the sentinel; then the "response"
field is required (KeyError is caught) and its first whitespace token
returned; an empty token list (IndexError) is also caught to the sentinel. -/
def categorize_transaction (r : Option HttpResp) : String :=
  match r with
  | none => "Uncategorized"
  | some resp =>
    if 400 ≤ resp.status && resp.status < 600 then "Uncategorized"
    else
      match resp.jsonResponse with
      | .error _ => "Uncategorized"
      | .ok none => "Uncategorized"
      | .ok (some s) => (firstToken (strTrim s)).getD "Uncategorized"

/-- Timeout passed by ai_categorize in src/main.py (seconds). -/
def AI_CATEGORIZE_TIMEOUT_SECONDS : Option ℕ := some 10

/-- Timeout passed by categorize_transaction in src/ai_categorizer.py: the
requests.post call carries no timeout argument. -/
def CATEGORIZE_TRANSACTION_TIMEOUT_SECONDS : Option ℕ := none

/-- Timeout passed by enrich_merchant in src/main.py (seconds). -/
def ENRICH_TIMEOUT_SECONDS : Option ℕ := some 5

/-! ## Merchant enrichment (src/main.py enrich_merchant) -/

/-- Outcome of the enrichment HTTP call: an exception, or a response with a
status and a JSON body that is a list of candidates, each with an optional
"name" field (none models a candidate dict lacking the key, whose KeyError
the bare except catches). Except.error models a non-JSON body. -/
inductive EnrichResult where
  | exn
  | resp (status : ℕ) (body : Except Unit (List (Option String)))
deriving Repr

/-- Embeds enrich_merchant: on status 200 with a non-empty candidate list,
the first candidate name; every other path falls through to the original
description, and the bare except ensures nothing propagates. -/
def enrich_merchant (r : EnrichResult) (description : String) : String :=
  match r with
  | .exn => description
  | .resp status body =>
    if status = 200 then
      match body with
      | .error _ => description
      | .ok [] => description
      | .ok (c :: _) =>
        match c with
        | some n => n
        | none => description
    else description

/-! ## Format detection (src/main.py detect_format) -/

/-- The column superset required by the chase branch of detect_format. -/
def chaseSignature : List String :=
  ["Transaction Date", "Post Date", "Description", "Category", "Type",
   "Amount", "Memo"]

/-- The column superset required by the bilt branch of detect_format. -/
def biltSignature : List String :=
  ["Transaction Date", "Description", "Points", "Category"]

/-- The column superset required by the capone branch of detect_format. -/
def caponeSignature : List String :=
  ["Posted Date", "Card No.", "Debit", "Credit"]

/-- Embeds detect_format: a pure function of the column set, an elif chain
evaluated in source order with the first matching predicate winning. -/
def detect_format (cols : List String) : String :=
  if "Appears On Your Statement As" ∈ cols then "amex"
  else if ∀ c ∈ chaseSignature, c ∈ cols then "chase"
  else if (∀ c ∈ biltSignature, c ∈ cols) ∧ "Card No." ∉ cols then "bilt"
  else if ∀ c ∈ caponeSignature, c ∈ cols then "capone"
  else "unknown"

/-! ## Normalization (src/main.py normalize) -/

/-- The canonical transaction record produced by normalize. A date is kept as
its raw source string (pd.to_datetime is injective on the inputs the claims
concern and is not itself under scrutiny); an amount of none models the float
NaN value. -/
structure Canon where
  date : String
  description : String
  amount : Option ℚ
  category : String
  source : String
deriving DecidableEq, Repr

/-- Column-existence check: df indexing with a missing column raises
KeyError at the dataframe level. -/
def requireCol (df : Df) (c : String) : Except NormErr Unit :=
  if c ∈ df.cols then .ok () else .error (.keyError c)

/-- Sequential column-existence checks, in the order the branch accesses the
columns. -/
def requireCols (df : Df) : List String → Except NormErr Unit
  | [] => .ok ()
  | c :: cs => do
    let _ ← requireCol df c
    requireCols df cs

/-- The row-filter step at the top of normalize:
df[~df["Description"].apply(should_exclude)]. -/
def keptRows (kws : List String) (rows : List Row) : List Row :=
  rows.filter (fun r => !should_exclude kws (getCell r "Description"))

/-- The chase amount rule: astype(str), strip all commas, parse as float,
take the absolute value (abs of NaN stays NaN). -/
def chaseAmount (v : CellVal) : Except NormErr (Option ℚ) := do
  let o ← pyFloat (stripCommas (cellStr v))
  .ok (o.map (fun q => |q|))

/-- One debit or credit cell after fillna(0).astype(float): a missing cell
becomes 0, a string cell is parsed as float. -/
def caponeNum (v : CellVal) : Except NormErr (Option ℚ) :=
  match v with
  | .na => .ok (some 0)
  | .str s => pyFloat s

/-- The capone amount rule: debit minus credit after fillna(0), with float
NaN propagating through the subtraction. -/
def caponeAmount (dv cv : CellVal) : Except NormErr (Option ℚ) := do
  let d ← caponeNum dv
  let c ← caponeNum cv
  .ok (match d, c with
       | some a, some b => some (a - b)
       | _, _ => none)

/-- The amex branch applied to one surviving row. -/
def amexRow (enrich getCat : String → String) (r : Row) :
    Except NormErr Canon := do
  let amt ← pyFloat (cellStr (getCell r "Amount"))
  .ok { date := cellStr (getCell r "Date"),
        description := enrich (cellStr (getCell r "Description")),
        amount := amt,
        category := getCat (cellStr (getCell r "Description")),
        source := "Amex" }

/-- The chase branch applied to one surviving row. -/
def chaseRow (enrich getCat : String → String) (r : Row) :
    Except NormErr Canon := do
  let amt ← chaseAmount (getCell r "Amount")
  .ok { date := cellStr (getCell r "Transaction Date"),
        description := enrich (cellStr (getCell r "Description")),
        amount := amt,
        category := getCat (cellStr (getCell r "Description")),
        source := "Chase" }

/-- The bilt branch applied to one surviving row. -/
def biltRow (enrich getCat : String → String) (r : Row) :
    Except NormErr Canon := do
  let amt ← pyFloat (cellStr (getCell r "Amount"))
  .ok { date := cellStr (getCell r "Transaction Date"),
        description := enrich (cellStr (getCell r "Description")),
        amount := amt,
        category := getCat (cellStr (getCell r "Description")),
        source := "Bilt" }

/-- The capone branch applied to one surviving row. -/
def caponeRow (enrich getCat : String → String) (r : Row) :
    Except NormErr Canon := do
  let amt ← caponeAmount (getCell r "Debit") (getCell r "Credit")
  .ok { date := cellStr (getCell r "Transaction Date"),
        description := enrich (cellStr (getCell r "Description")),
        amount := amt,
        category := getCat (cellStr (getCell r "Description")),
        source := "CapitalOne" }

/-- Row-by-row traversal with the first error propagated (the semantics of
the vectorized pandas column operations on the error paths the claims
concern). -/
def mapRows (f : Row → Except NormErr Canon) :
    List Row → Except NormErr (List Canon)
  | [] => .ok []
  | r :: rs => do
    let c ← f r
    let cs ← mapRows f rs
    .ok (c :: cs)

/-- Embeds normalize: the exclusion filter first, then the elif chain on the
source label, with the final else raising the unsupported-format ValueError.
The enrichment and categorization oracles are passed as functions. -/
def normalize (kws : List String) (enrich getCat : String → String)
    (df : Df) (source : String) : Except NormErr (List Canon) := do
  let _ ← requireCol df "Description"
  let kept := keptRows kws df.rows
  if source = "amex" then do
    let _ ← requireCols df ["Date", "Amount"]
    mapRows (amexRow enrich getCat) kept
  else if source = "chase" then do
    let _ ← requireCols df ["Amount", "Transaction Date"]
    mapRows (chaseRow enrich getCat) kept
  else if source = "bilt" then do
    let _ ← requireCols df ["Transaction Date", "Amount"]
    mapRows (biltRow enrich getCat) kept
  else if source = "capone" then do
    let _ ← requireCols df ["Debit", "Credit", "Transaction Date"]
    mapRows (caponeRow enrich getCat) kept
  else .error (.unsupported source)

/-! ## Deduplicating persister (src/db/db_loader.py insert_dataframe) -/

/-- A stored row of the transactions table. -/
structure StoredRow where
  date : String
  description : String
  amount : Option ℚ
  category : String
  direction : String
  source : String
  filename : String
deriving DecidableEq, Repr

/-- The natural dedup key of a stored row. -/
def dedupKey (r : StoredRow) : String × String × Option ℚ × String × String :=
  (r.date, r.description, r.amount, r.source, r.filename)

/-- The row actually sent to the INSERT: normalize output plus the filename
tag added by insert_dataframe and the defaulted direction (normalize emits no
direction column, so row.get defaults it to "outflow"). -/
def toStored (filename : String) (c : Canon) : StoredRow :=
  { date := c.date, description := c.description, amount := c.amount,
    category := c.category, direction := "outflow", source := c.source,
    filename := filename }

/-- Modelled from the spec: the uniqueness constraint of the transactions
table is schema DDL that is not in the repository (schema management is an
external collaborator). Section 6 of the spec requires a uniqueness
constraint over (date, description, amount, source, filename) with atomic
insert-or-ignore, which is what INSERT ... ON CONFLICT DO NOTHING performs
against it: a row whose key is already stored is silently skipped. -/
def insertRow (store : List StoredRow) (r : StoredRow) : List StoredRow :=
  if store.any (fun s => dedupKey s = dedupKey r) then store
  else store ++ [r]

/-- Embeds insert_dataframe: tag every row with the filename, insert each in
order with conflict-ignore semantics, and report the completion message the
function prints (which names only the file). -/
def insert_dataframe (store : List StoredRow) (df : List Canon)
    (filename : String) : List StoredRow × String :=
  (df.foldl (fun st c => insertRow st (toStored filename c)) store,
   "✅ Inserted rows from: " ++ filename)

/-! ## Pipeline orchestration (src/main.py process_csv, run_pipeline) -/

/-- A file-level error inside process_csv: the read_csv call raised, the
normalize call raised, or the output-write/rename step raised. -/
inductive PipeErr where
  | readError (msg : String)
  | normError (e : NormErr)
  | ioError (msg : String)
deriving DecidableEq, Repr

/-- A non-raising outcome of process_csv. -/
inductive FileOutcome where
  | skippedUnknown (name : String)
  | processed (name : String) (out : List Canon)
deriving DecidableEq, Repr

/-- Embeds process_csv: read the file, detect the format, return early on
unknown, otherwise normalize, then write the artifact and archive the source
(the latter two collapsed into one IO oracle). Every raise propagates to the
caller as an Except.error. -/
def process_csv (kws : List String) (enrich getCat : String → String)
    (readResult : Except String Df) (ioResult : Except String Unit)
    (name : String) : Except PipeErr FileOutcome :=
  match readResult with
  | .error m => .error (.readError m)
  | .ok df =>
    let source := detect_format df.cols
    if source = "unknown" then .ok (.skippedUnknown name)
    else
      match normalize kws enrich getCat df source with
      | .error e => .error (.normError e)
      | .ok out =>
        match ioResult with
        | .error m => .error (.ioError m)
        | .ok _ => .ok (.processed name out)

/-- One input file of a batch: its name and the oracle outcomes of its two
effectful steps. -/
structure FileJob where
  name : String
  readResult : Except String Df
  ioResult : Except String Unit

/-- Rendering of a pipeline error in the failure log line. -/
def describePipeErr : PipeErr → String
  | .readError m => m
  | .normError (.keyError c) => "KeyError: " ++ c
  | .normError (.valueError s) => "could not convert string to float: " ++ s
  | .normError (.unsupported s) => "Unsupported CSV format: " ++ s
  | .ioError m => m

/-- Path.stem for the *.csv files the glob yields. -/
def stem (n : String) : String :=
  if ".csv".data.isSuffixOf n.data then ⟨n.data.take (n.data.length - 4)⟩
  else n

/-- The log line one file produces: the warning print of the unknown-format
early return, the success print of process_csv, or the failure print of the
except clause in run_pipeline (which names the file). -/
def fileLog (kws : List String) (enrich getCat : String → String)
    (j : FileJob) : String :=
  match process_csv kws enrich getCat j.readResult j.ioResult j.name with
  | .ok (.skippedUnknown n) => "⚠️ Unknown format: " ++ n
  | .ok (.processed n _) => "✅ Processed: " ++ n ++ " → " ++ stem n ++ "_normalized.csv"
  | .error e => "❌ Failed: " ++ j.name ++ " - " ++ describePipeErr e

/-- Embeds run_pipeline: every globbed file is attempted in order; the
try/except at the file boundary turns each file into exactly one log line,
so the batch is a total map over the files. -/
def run_pipeline (kws : List String) (enrich getCat : String → String)
    (files : List FileJob) : List String :=
  files.map (fileLog kws enrich getCat)

/-! ## Shared lemmas about the persister -/

theorem insertRow_key_mem (st : List StoredRow) (r : StoredRow) :
    dedupKey r ∈ (insertRow st r).map dedupKey := by
  unfold insertRow
  split
  · rename_i h
    simp only [List.any_eq_true, decide_eq_true_eq] at h
    obtain ⟨s, hs, he⟩ := h
    exact he ▸ List.mem_map_of_mem dedupKey hs
  · simp

theorem insertRow_keys_sub (st : List StoredRow) (r : StoredRow) :
    st.map dedupKey ⊆ (insertRow st r).map dedupKey := by
  unfold insertRow
  split
  · exact fun k hk => hk
  · intro k hk
    simp only [List.map_append, List.mem_append]
    exact Or.inl hk

theorem insertRow_eq_of_mem (st : List StoredRow) (r : StoredRow)
    (h : dedupKey r ∈ st.map dedupKey) : insertRow st r = st := by
  have ha : st.any (fun s => dedupKey s = dedupKey r) = true := by
    simp only [List.any_eq_true, decide_eq_true_eq]
    obtain ⟨s, hs, he⟩ := List.mem_map.mp h
    exact ⟨s, hs, he⟩
  simp [insertRow, ha]

theorem insertRow_nodup (st : List StoredRow) (r : StoredRow)
    (h : (st.map dedupKey).Nodup) : ((insertRow st r).map dedupKey).Nodup := by
  unfold insertRow
  split
  · exact h
  · rename_i hna
    simp only [List.any_eq_true, decide_eq_true_eq, not_exists] at hna
    simp only [List.map_append, List.map_cons, List.map_nil]
    rw [List.nodup_append]
    refine ⟨h, List.nodup_singleton _, ?_⟩
    intro k hk hk1
    simp only [List.mem_singleton] at hk1
    obtain ⟨s, hs, he⟩ := List.mem_map.mp hk
    exact hna s ⟨hs, hk1 ▸ he⟩

theorem foldl_insert_keys_sub (fn : String) (df : List Canon)
    (st : List StoredRow) :
    st.map dedupKey ⊆
      (df.foldl (fun s c => insertRow s (toStored fn c)) st).map dedupKey := by
  induction df generalizing st with
  | nil => exact fun k hk => hk
  | cons c cs ih =>
    intro k hk
    exact ih (insertRow st (toStored fn c)) (insertRow_keys_sub st (toStored fn c) hk)

theorem foldl_insert_key_mem (fn : String) (c : Canon) (df : List Canon)
    (st : List StoredRow) (hc : c ∈ df) :
    dedupKey (toStored fn c) ∈
      (df.foldl (fun s c2 => insertRow s (toStored fn c2)) st).map dedupKey := by
  induction hc generalizing st with
  | head cs =>
    simp only [List.foldl_cons]
    exact foldl_insert_keys_sub fn cs _ (insertRow_key_mem st (toStored fn c))
  | tail c0 hm ih =>
    simp only [List.foldl_cons]
    exact ih _

theorem foldl_insert_nodup (fn : String) (df : List Canon)
    (st : List StoredRow) (h : (st.map dedupKey).Nodup) :
    ((df.foldl (fun s c => insertRow s (toStored fn c)) st).map dedupKey).Nodup := by
  induction df generalizing st with
  | nil => exact h
  | cons c cs ih =>
    simp only [List.foldl_cons]
    exact ih _ (insertRow_nodup st (toStored fn c) h)

theorem foldl_insert_noop (fn : String) (df : List Canon)
    (st : List StoredRow)
    (h : ∀ c ∈ df, dedupKey (toStored fn c) ∈ st.map dedupKey) :
    df.foldl (fun s c => insertRow s (toStored fn c)) st = st := by
  induction df with
  | nil => rfl
  | cons c cs ih =>
    simp only [List.foldl_cons]
    rw [insertRow_eq_of_mem st _ (h c (List.mem_cons_self c cs))]
    exact ih (fun c2 hc2 => h c2 (List.mem_cons_of_mem c hc2))

/-! ## C1 -/

/-- C1: insert_dataframe never creates two stored rows with an identical
dedup key (a store whose keys are pairwise distinct stays so), and
re-running it over the same canonical rows is a no-op: the second run
inserts zero additional rows, every conflicting insert being silently
skipped. -/
theorem c1_persister_idempotent (store : List StoredRow) (df : List Canon)
    (fn : String) (h : (store.map dedupKey).Nodup) :
    ((insert_dataframe store df fn).1.map dedupKey).Nodup ∧
    (insert_dataframe (insert_dataframe store df fn).1 df fn).1 =
      (insert_dataframe store df fn).1 := by
  constructor
  · exact foldl_insert_nodup fn df store h
  · exact foldl_insert_noop fn df _
      (fun c hc => foldl_insert_key_mem fn c df store hc)

/-- Witness for C1 at a concrete store and dataframe. -/
theorem c1_persister_idempotent_witness :
    (((insert_dataframe []
        [{ date := "2024-01-05", description := "Uber Trip",
           amount := some 15, category := "Transport",
           source := "CapitalOne" }] "jan.csv").1.map dedupKey).Nodup) ∧
    (insert_dataframe
        (insert_dataframe []
          [{ date := "2024-01-05", description := "Uber Trip",
             amount := some 15, category := "Transport",
             source := "CapitalOne" }] "jan.csv").1
        [{ date := "2024-01-05", description := "Uber Trip",
           amount := some 15, category := "Transport",
           source := "CapitalOne" }] "jan.csv").1 =
      (insert_dataframe []
        [{ date := "2024-01-05", description := "Uber Trip",
           amount := some 15, category := "Transport",
           source := "CapitalOne" }] "jan.csv").1 :=
  c1_persister_idempotent [] _ "jan.csv" (by simp)

/-! ## C2 -/

theorem tag_vendor_ne_empty (d t : String) (h : tag_vendor d = some t) :
    t ≠ "" := by
  unfold tag_vendor at h
  cases hf : VENDOR_MAP.find? (fun p => strContains (strLower d) p.1) with
  | none => rw [hf] at h; simp at h
  | some p =>
    rw [hf] at h
    simp at h
    have hp := List.mem_of_find?_eq_some hf
    rw [← h]
    fin_cases hp <;> decide

/-- C2: get_category resolves in the order vendor rules, correction memory,
remote service: a vendor-rule match (first matching table entry, via
tag_vendor) is returned whatever the feedback memory and the remote state
are, and on no vendor match a feedback hit is returned with the result
independent of the remote service outcome (the remote call is never
consulted). -/
theorem c2_resolution_order (description : String)
    (feedback : List (String × String)) (r r2 : Option HttpResp) :
    (∀ t, tag_vendor description = some t →
      get_category feedback r description = t) ∧
    (tag_vendor description = none →
      ∀ c, feedback.lookup description = some c →
        get_category feedback r description = c ∧
        get_category feedback r description =
          get_category feedback r2 description) := by
  constructor
  · intro t ht
    have hne := tag_vendor_ne_empty description t ht
    simp [get_category, pyOr, ht, hne]
  · intro hn c hc
    constructor
    · simp [get_category, pyOr, hn, ai_categorize, hc]
    · simp [get_category, pyOr, hn, ai_categorize, hc]

/-- Witness for C2: a vendor-rule description wins over both a feedback
entry and a live remote answer, and a memorized description is answered from
memory whatever the remote would say. -/
theorem c2_resolution_order_witness :
    get_category [("coffee shop", "Dining")]
      (some ⟨200, .ok (some "Misc")⟩) "My NETFLIX bill" = "Subscription" ∧
    get_category [("coffee shop", "Dining")]
      (some ⟨200, .ok (some "Misc")⟩) "coffee shop" = "Dining" :=
  ⟨(c2_resolution_order "My NETFLIX bill" [("coffee shop", "Dining")]
      (some ⟨200, .ok (some "Misc")⟩) none).1 "Subscription" (by decide),
   ((c2_resolution_order "coffee shop" [("coffee shop", "Dining")]
      (some ⟨200, .ok (some "Misc")⟩) none).2 (by decide) "Dining"
      (by decide)).1⟩

/-! ## C3 -/

/-- C3 counterexample: on a successful remote response whose text is
"Dining Out", the resolver's remote step returns the whole stripped text,
not the first whitespace-delimited token "Dining" the claim requires. -/
theorem c3_counterexample :
    ai_categorize [] "lunch downtown"
      (some ⟨200, .ok (some " Dining Out ")⟩) = "Dining Out" ∧
    firstToken (strTrim " Dining Out ") = some "Dining" ∧
    ("Dining Out" : String) ≠ "Dining" :=
  ⟨by decide, by decide, by decide⟩

/-- C3 (amended): the resolver's remote step (ai_categorize) sends with a
10-second timeout and no retry and returns the sentinel on any raised
failure or malformed JSON, but on a parseable JSON response it returns the
entire stripped response text (defaulting to the sentinel for a missing
response field) whatever the HTTP status is; the standalone
categorize_transaction helper does return the first whitespace-delimited
token and the sentinel on any failure (error status, malformed JSON, missing
field, or blank text), but sends its request with no timeout. -/
theorem c3_remote_step_behavior (feedback : List (String × String))
    (d s : String) (status : ℕ) (o : Option String)
    (body : Except Unit (Option String)) :
    AI_CATEGORIZE_TIMEOUT_SECONDS = some 10 ∧
    CATEGORIZE_TRANSACTION_TIMEOUT_SECONDS = none ∧
    (feedback.lookup d = none →
      ai_categorize feedback d none = "Uncategorized") ∧
    (feedback.lookup d = none →
      ai_categorize feedback d (some ⟨status, .error ()⟩) = "Uncategorized") ∧
    (feedback.lookup d = none →
      ai_categorize feedback d (some ⟨status, .ok o⟩) =
        strTrim (o.getD "Uncategorized")) ∧
    categorize_transaction none = "Uncategorized" ∧
    (400 ≤ status → status < 600 →
      categorize_transaction (some ⟨status, body⟩) = "Uncategorized") ∧
    (status < 400 →
      categorize_transaction (some ⟨status, .ok (some s)⟩) =
        (firstToken (strTrim s)).getD "Uncategorized") ∧
    (status < 400 →
      categorize_transaction (some ⟨status, .error ()⟩) = "Uncategorized") ∧
    (status < 400 →
      categorize_transaction (some ⟨status, .ok none⟩) = "Uncategorized") := by
  refine ⟨rfl, rfl, ?_, ?_, ?_, rfl, ?_, ?_, ?_, ?_⟩
  · intro hn; simp [ai_categorize, ai_remote, hn]
  · intro hn; simp [ai_categorize, ai_remote, hn]
  · intro hn; simp [ai_categorize, ai_remote, hn]
  · intro h1 h2; simp [categorize_transaction, h1, h2]
  · intro h1; simp [categorize_transaction, Nat.not_le.mpr h1]
  · intro h1; simp [categorize_transaction, Nat.not_le.mpr h1]
  · intro h1; simp [categorize_transaction, Nat.not_le.mpr h1]

/-- Witness for C3 (amended) at concrete statuses and responses. -/
theorem c3_remote_step_behavior_witness :
    ai_categorize [] "lunch" (some ⟨500, .ok (some "Dining Out")⟩) =
      strTrim ((some "Dining Out").getD "Uncategorized") ∧
    categorize_transaction (some ⟨500, .ok (some "Dining Out")⟩) =
      "Uncategorized" ∧
    categorize_transaction (some ⟨200, .ok (some "Dining Out")⟩) =
      (firstToken (strTrim "Dining Out")).getD "Uncategorized" :=
  ⟨(c3_remote_step_behavior [] "lunch" "Dining Out" 500 (some "Dining Out")
      (.ok (some "Dining Out"))).2.2.2.2.1 (by decide),
   (c3_remote_step_behavior [] "lunch" "Dining Out" 500 (some "Dining Out")
      (.ok (some "Dining Out"))).2.2.2.2.2.2.1 (by decide) (by decide),
   (c3_remote_step_behavior [] "lunch" "Dining Out" 200 (some "Dining Out")
      (.ok (some "Dining Out"))).2.2.2.2.2.2.2.1 (by decide)⟩

/-! ## C4 -/

/-- C4: detect_format is a pure function of the column set whose value is
fully characterized by the four signature predicates evaluated in source
priority order, the first match winning, with every non-matching column set
mapped to the label "unknown". -/
theorem c4_detect_format_characterization (cols : List String) :
    (detect_format cols = "amex" ↔ "Appears On Your Statement As" ∈ cols) ∧
    (detect_format cols = "chase" ↔
      ("Appears On Your Statement As" ∉ cols ∧
        ∀ c ∈ chaseSignature, c ∈ cols)) ∧
    (detect_format cols = "bilt" ↔
      ("Appears On Your Statement As" ∉ cols ∧
        ¬(∀ c ∈ chaseSignature, c ∈ cols) ∧
        (∀ c ∈ biltSignature, c ∈ cols) ∧ "Card No." ∉ cols)) ∧
    (detect_format cols = "capone" ↔
      ("Appears On Your Statement As" ∉ cols ∧
        ¬(∀ c ∈ chaseSignature, c ∈ cols) ∧
        ¬((∀ c ∈ biltSignature, c ∈ cols) ∧ "Card No." ∉ cols) ∧
        ∀ c ∈ caponeSignature, c ∈ cols)) ∧
    (detect_format cols = "unknown" ↔
      ("Appears On Your Statement As" ∉ cols ∧
        ¬(∀ c ∈ chaseSignature, c ∈ cols) ∧
        ¬((∀ c ∈ biltSignature, c ∈ cols) ∧ "Card No." ∉ cols) ∧
        ¬(∀ c ∈ caponeSignature, c ∈ cols))) := by
  unfold detect_format
  split_ifs with h1 h2 h3 h4 <;> refine ⟨?_, ?_, ?_, ?_, ?_⟩ <;> simp_all

/-- Witness for C4: the four canonical header signatures receive their
labels and an unrecognized header set is labelled unknown. -/
theorem c4_detect_format_witness :
    detect_format ["Date", "Description", "Amount",
      "Appears On Your Statement As"] = "amex" ∧
    detect_format chaseSignature = "chase" ∧
    detect_format biltSignature = "bilt" ∧
    detect_format caponeSignature = "capone" ∧
    detect_format ["Datum", "Betrag"] = "unknown" :=
  ⟨(c4_detect_format_characterization _).1.mpr (by decide),
   (c4_detect_format_characterization _).2.1.mpr (by decide),
   (c4_detect_format_characterization _).2.2.1.mpr (by decide),
   (c4_detect_format_characterization _).2.2.2.1.mpr (by decide),
   (c4_detect_format_characterization _).2.2.2.2.mpr (by decide)⟩

/-! ## C6 -/

/-- C6: the amount derivation rules of normalize. A Chase-style Amount
string has its thousands-separator commas stripped, is parsed to a decimal
and has its absolute value taken, so "1,200.50" (and "-1,200.50") yield
1200.50; a CapitalOne-style amount is debit minus credit, with a missing
debit or credit cell read as zero. -/
theorem c6_amount_rules :
    (chaseAmount (.str "1,200.50") = .ok (some (1200.5 : ℚ))) ∧
    (chaseAmount (.str "-1,200.50") = .ok (some (1200.5 : ℚ))) ∧
    (∀ dv d, caponeNum dv = .ok (some d) →
      caponeAmount dv .na = .ok (some (d - 0))) ∧
    (∀ cv c, caponeNum cv = .ok (some c) →
      caponeAmount .na cv = .ok (some (0 - c))) ∧
    (∀ dv cv d c, caponeNum dv = .ok (some d) → caponeNum cv = .ok (some c) →
      caponeAmount dv cv = .ok (some (d - c))) := by
  refine ⟨?_, ?_, ?_, ?_, ?_⟩
  · have h : (1200.5 : ℚ) =
        |(1 : ℚ) * (((1200 : ℕ) : ℚ) + ((50 : ℕ) : ℚ) / (10 : ℚ) ^ (2 : ℕ))| := by
      rw [abs_eq_self.mpr (by positivity)]
      norm_num
    rw [h]
    rfl
  · have h : (1200.5 : ℚ) =
        |(-1 : ℚ) * (((1200 : ℕ) : ℚ) + ((50 : ℕ) : ℚ) / (10 : ℚ) ^ (2 : ℕ))| := by
      rw [abs_mul, abs_neg, abs_one, abs_eq_self.mpr (by positivity)]
      norm_num
    rw [h]
    rfl
  · intro dv d h
    unfold caponeAmount
    rw [h]
    rfl
  · intro cv c h
    unfold caponeAmount
    rw [h]
    rfl
  · intro dv cv d c hd hc
    unfold caponeAmount
    rw [hd, hc]
    rfl

/-- Witness for C6: the spec scenario Debit=15.00, Credit missing yields
amount 15 − 0. -/
theorem c6_amount_rules_witness :
    caponeAmount (.str "15.00") .na = .ok (some ((15 : ℚ) - 0)) := by
  have h : caponeNum (.str "15.00") = .ok (some (15 : ℚ)) := by
    have e : (15 : ℚ) =
        (1 : ℚ) * (((15 : ℕ) : ℚ) + ((0 : ℕ) : ℚ) / (10 : ℚ) ^ (2 : ℕ)) := by
      norm_num
    rw [e]
    rfl
  exact c6_amount_rules.2.2.1 (.str "15.00") 15 h

/-! ## C7 -/

/-- C7: enrich_merchant is total (its bare except means no path raises to
the caller): a 200 response with a non-empty candidate list yields the first
candidate name, and an exception, a non-200 status, a malformed body, an
empty list, or a first candidate without a name all yield the original
description unchanged. -/
theorem c7_enrich_merchant_total (description n : String) (status : ℕ)
    (rest : List (Option String))
    (body : Except Unit (List (Option String))) :
    (enrich_merchant .exn description = description) ∧
    (enrich_merchant (.resp 200 (.ok (some n :: rest))) description = n) ∧
    (status ≠ 200 → enrich_merchant (.resp status body) description =
      description) ∧
    (enrich_merchant (.resp 200 (.error ())) description = description) ∧
    (enrich_merchant (.resp 200 (.ok [])) description = description) ∧
    (enrich_merchant (.resp 200 (.ok (none :: rest))) description =
      description) := by
  refine ⟨rfl, rfl, ?_, rfl, rfl, rfl⟩
  intro h
  simp [enrich_merchant, h]

/-- Witness for C7 at a concrete 404 failure. -/
theorem c7_enrich_merchant_total_witness :
    enrich_merchant (.resp 404 (.ok [some "Uber Technologies"]))
      "UBER TRIP 0423" = "UBER TRIP 0423" :=
  (c7_enrich_merchant_total "UBER TRIP 0423" "Uber Technologies" 404 []
    (.ok [some "Uber Technologies"])).2.2.1 (by decide)

/-! ## C9 -/

/-- C9 counterexample: two consecutive runs over the same row insert one row
and then zero rows, yet produce the identical report string — the persister
reports no inserted-versus-skipped counts. -/
theorem c9_counterexample :
    ((insert_dataframe []
        [{ date := "2024-01-05", description := "Uber Trip",
           amount := some 15, category := "Transport",
           source := "CapitalOne" }] "jan.csv").1.length = 1) ∧
    ((insert_dataframe
        (insert_dataframe []
          [{ date := "2024-01-05", description := "Uber Trip",
             amount := some 15, category := "Transport",
             source := "CapitalOne" }] "jan.csv").1
        [{ date := "2024-01-05", description := "Uber Trip",
           amount := some 15, category := "Transport",
           source := "CapitalOne" }] "jan.csv").1.length = 1) ∧
    ((insert_dataframe []
        [{ date := "2024-01-05", description := "Uber Trip",
           amount := some 15, category := "Transport",
           source := "CapitalOne" }] "jan.csv").2 =
      (insert_dataframe
        (insert_dataframe []
          [{ date := "2024-01-05", description := "Uber Trip",
             amount := some 15, category := "Transport",
             source := "CapitalOne" }] "jan.csv").1
        [{ date := "2024-01-05", description := "Uber Trip",
           amount := some 15, category := "Transport",
           source := "CapitalOne" }] "jan.csv").2) :=
  ⟨by decide, by decide, by decide⟩

/-- C9 (amended): after persisting a file's rows the persister reports only
a fixed completion message naming the source file; it carries no count of
rows inserted versus rows skipped as duplicates. -/
theorem c9_report_has_no_counts (store : List StoredRow) (df : List Canon)
    (fn : String) :
    (insert_dataframe store df fn).2 = "✅ Inserted rows from: " ++ fn :=
  rfl

/-! ## C5 -/

/-- C5: normalize drops exactly the rows whose lower-cased description
contains some loaded exclusion keyword as a plain substring and no other
rows (membership in the surviving rows is exactly non-excluded input
membership), and the drop happens before any enrichment or categorization:
inserting an excluded row anywhere in the input leaves the entire normalize
output unchanged, for every source label and oracle pair. -/
theorem c5_exclusion_filter (kws : List String) (rows : List Row) (r : Row) :
    (r ∈ keptRows kws rows ↔
      r ∈ rows ∧ should_exclude kws (getCell r "Description") = false) ∧
    (should_exclude kws (getCell r "Description") = true →
      ∀ (enrich getCat : String → String) (source : String)
        (cols : List String) (pre post : List Row),
        normalize kws enrich getCat ⟨cols, pre ++ r :: post⟩ source =
          normalize kws enrich getCat ⟨cols, pre ++ post⟩ source) := by
  constructor
  · simp [keptRows, List.mem_filter]
  · intro h enrich getCat source cols pre post
    have hk : keptRows kws (pre ++ r :: post) = keptRows kws (pre ++ post) := by
      simp [keptRows, List.filter_append, h]
    have h1 : ∀ c, requireCol ⟨cols, pre ++ r :: post⟩ c =
        requireCol ⟨cols, pre ++ post⟩ c := fun c => rfl
    have h2 : ∀ cs, requireCols ⟨cols, pre ++ r :: post⟩ cs =
        requireCols ⟨cols, pre ++ post⟩ cs := by
      intro cs
      induction cs with
      | nil => rfl
      | cons c cs ih => simp [requireCols, h1, ih]
    unfold normalize
    simp only [hk, h1, h2]

/-- Witness for C5: a row whose description contains the keyword "fee" is
dropped from a capone-style dataframe without any other effect. -/
theorem c5_exclusion_filter_witness :
    normalize ["fee"] id id
      ⟨["Description", "Debit", "Credit", "Transaction Date"],
        [[("Description", .str "Monthly FEE assessed")]]⟩ "capone" =
      normalize ["fee"] id id
        ⟨["Description", "Debit", "Credit", "Transaction Date"], []⟩
        "capone" :=
  (c5_exclusion_filter ["fee"] [] [("Description", .str "Monthly FEE assessed")]).2
    (by decide) id id "capone"
    ["Description", "Debit", "Credit", "Transaction Date"] [] []

/-! ## C8 -/

/-- C8: run_pipeline attempts every file: the batch log is a total map over
the files, so a file whose processing raises affects only its own log line
(which carries the file's name) and the surrounding files are processed
exactly as they would be alone; an unknown-format file yields a warning line
and no error. -/
theorem c8_batch_isolation (kws : List String)
    (enrich getCat : String → String) (jobs1 jobs2 : List FileJob)
    (j : FileJob) :
    (run_pipeline kws enrich getCat (jobs1 ++ j :: jobs2) =
      run_pipeline kws enrich getCat jobs1 ++
        fileLog kws enrich getCat j :: run_pipeline kws enrich getCat jobs2) ∧
    ((run_pipeline kws enrich getCat jobs1).length = jobs1.length) ∧
    (∀ e, process_csv kws enrich getCat j.readResult j.ioResult j.name =
        .error e →
      fileLog kws enrich getCat j =
        "❌ Failed: " ++ j.name ++ " - " ++ describePipeErr e) ∧
    (∀ df, j.readResult = .ok df → detect_format df.cols = "unknown" →
      fileLog kws enrich getCat j = "⚠️ Unknown format: " ++ j.name) := by
  refine ⟨?_, ?_, ?_, ?_⟩
  · simp [run_pipeline]
  · simp [run_pipeline]
  · intro e he
    simp [fileLog, he]
  · intro df hr hd
    simp [fileLog, process_csv, hr, hd]

/-- Witness for C8: a file whose read raises is logged as failed with its
name, inside a batch whose other file is still processed. -/
theorem c8_batch_isolation_witness :
    run_pipeline [] id id
      [⟨"bad.csv", .error "boom", .ok ()⟩,
       ⟨"odd.csv", .ok ⟨["Datum"], []⟩, .ok ()⟩] =
      run_pipeline [] id id [] ++
        fileLog [] id id ⟨"bad.csv", .error "boom", .ok ()⟩ ::
          run_pipeline [] id id [⟨"odd.csv", .ok ⟨["Datum"], []⟩, .ok ()⟩] ∧
    fileLog [] id id ⟨"bad.csv", .error "boom", .ok ()⟩ =
      "❌ Failed: " ++ "bad.csv" ++ " - " ++
        describePipeErr (.readError "boom") ∧
    fileLog [] id id ⟨"odd.csv", .ok ⟨["Datum"], []⟩, .ok ()⟩ =
      "⚠️ Unknown format: " ++ "odd.csv" :=
  ⟨(c8_batch_isolation [] id id []
      [⟨"odd.csv", .ok ⟨["Datum"], []⟩, .ok ()⟩]
      ⟨"bad.csv", .error "boom", .ok ()⟩).1,
   (c8_batch_isolation [] id id [] []
      ⟨"bad.csv", .error "boom", .ok ()⟩).2.2.1 (.readError "boom") rfl,
   (c8_batch_isolation [] id id [] []
      ⟨"odd.csv", .ok ⟨["Datum"], []⟩, .ok ()⟩).2.2.2 ⟨["Datum"], []⟩ rfl
      (by decide)⟩

/-! ## C10 -/

/-- An error shape that the unsupported-format branch can never have
produced. -/
def NotUnsupported (e : NormErr) : Prop := ∀ t, e ≠ .unsupported t

theorem exceptBind_err {α β : Type} (x : Except NormErr α)
    (f : α → Except NormErr β)
    (hx : ∀ e, x = .error e → NotUnsupported e)
    (hf : ∀ a e, f a = .error e → NotUnsupported e) :
    ∀ e, x >>= f = .error e → NotUnsupported e := by
  intro e h
  cases hx2 : x with
  | error e2 =>
    rw [hx2] at h
    have : e2 = e := by
      simpa [Bind.bind, Except.bind] using h
    exact this ▸ hx e2 hx2
  | ok a =>
    rw [hx2] at h
    have : f a = .error e := by
      simpa [Bind.bind, Except.bind] using h
    exact hf a e this

theorem pyFloat_err_shape (s : String) :
    ∀ e, pyFloat s = .error e → NotUnsupported e := by
  intro e h
  simp only [pyFloat] at h
  split at h
  · cases h
  · split at h
    · cases h
    · injection h with h2
      rw [← h2]
      intro t ht
      cases ht

theorem requireCol_err_shape (df : Df) (c : String) :
    ∀ e, requireCol df c = .error e → NotUnsupported e := by
  intro e h
  unfold requireCol at h
  split at h
  · cases h
  · injection h with h2
    rw [← h2]
    intro t ht
    cases ht

theorem requireCols_err_shape (df : Df) (cs : List String) :
    ∀ e, requireCols df cs = .error e → NotUnsupported e := by
  induction cs with
  | nil => intro e h; cases h
  | cons c cs ih =>
    intro e h
    unfold requireCols at h
    exact exceptBind_err _ _ (requireCol_err_shape df c) (fun _ => ih) e h

theorem chaseAmount_err_shape (v : CellVal) :
    ∀ e, chaseAmount v = .error e → NotUnsupported e := by
  intro e h
  unfold chaseAmount at h
  exact exceptBind_err _ _ (pyFloat_err_shape _)
    (fun a e2 h2 => by cases h2) e h

theorem caponeNum_err_shape (v : CellVal) :
    ∀ e, caponeNum v = .error e → NotUnsupported e := by
  intro e h
  unfold caponeNum at h
  cases v with
  | na => cases h
  | str s => exact pyFloat_err_shape s e h

theorem caponeAmount_err_shape (dv cv : CellVal) :
    ∀ e, caponeAmount dv cv = .error e → NotUnsupported e := by
  intro e h
  unfold caponeAmount at h
  exact exceptBind_err _ _ (caponeNum_err_shape dv)
    (fun a => exceptBind_err _ _ (caponeNum_err_shape cv)
      (fun b e2 h2 => by cases h2)) e h

theorem amexRow_err_shape (enrich getCat : String → String) (r : Row) :
    ∀ e, amexRow enrich getCat r = .error e → NotUnsupported e := by
  intro e h
  unfold amexRow at h
  exact exceptBind_err _ _ (pyFloat_err_shape _)
    (fun a e2 h2 => by cases h2) e h

theorem chaseRow_err_shape (enrich getCat : String → String) (r : Row) :
    ∀ e, chaseRow enrich getCat r = .error e → NotUnsupported e := by
  intro e h
  unfold chaseRow at h
  exact exceptBind_err _ _ (chaseAmount_err_shape _)
    (fun a e2 h2 => by cases h2) e h

theorem biltRow_err_shape (enrich getCat : String → String) (r : Row) :
    ∀ e, biltRow enrich getCat r = .error e → NotUnsupported e := by
  intro e h
  unfold biltRow at h
  exact exceptBind_err _ _ (pyFloat_err_shape _)
    (fun a e2 h2 => by cases h2) e h

theorem caponeRow_err_shape (enrich getCat : String → String) (r : Row) :
    ∀ e, caponeRow enrich getCat r = .error e → NotUnsupported e := by
  intro e h
  unfold caponeRow at h
  exact exceptBind_err _ _ (caponeAmount_err_shape _ _)
    (fun a e2 h2 => by cases h2) e h

theorem mapRows_err_shape (f : Row → Except NormErr Canon)
    (hf : ∀ r e, f r = .error e → NotUnsupported e) (rows : List Row) :
    ∀ e, mapRows f rows = .error e → NotUnsupported e := by
  induction rows with
  | nil => intro e h; cases h
  | cons r rs ih =>
    intro e h
    unfold mapRows at h
    exact exceptBind_err _ _ (hf r)
      (fun c => exceptBind_err _ _ ih (fun cs e2 h2 => by cases h2)) e h

theorem detect_format_cases (cols : List String) :
    detect_format cols = "amex" ∨ detect_format cols = "chase" ∨
    detect_format cols = "bilt" ∨ detect_format cols = "capone" ∨
    detect_format cols = "unknown" := by
  unfold detect_format
  split_ifs <;> simp

theorem normalize_err_shape (kws : List String)
    (enrich getCat : String → String) (df : Df) (source : String)
    (hs : source = "amex" ∨ source = "chase" ∨ source = "bilt" ∨
      source = "capone") :
    ∀ e, normalize kws enrich getCat df source = .error e →
      NotUnsupported e := by
  intro e h
  unfold normalize at h
  rcases hs with hs | hs | hs | hs <;> subst hs <;> simp only [] at h <;>
    refine exceptBind_err _ _ (requireCol_err_shape df "Description")
      (fun a e2 h2 => ?_) e h <;> simp_all <;>
    exact exceptBind_err _ _ (requireCols_err_shape df _)
      (fun b => mapRows_err_shape _ (fun r => by
        first
          | exact amexRow_err_shape enrich getCat r
          | exact chaseRow_err_shape enrich getCat r
          | exact biltRow_err_shape enrich getCat r
          | exact caponeRow_err_shape enrich getCat r) _) e2 h2

/-- C10: the unsupported-format ValueError branch of normalize is
unreachable through process_csv: detect_format only ever returns one of the
five labels, a non-unknown detected label never drives normalize into its
final else branch, and process_csv (which returns before normalize when the
label is unknown) therefore never surfaces that error. -/
theorem c10_unsupported_unreachable (kws : List String)
    (enrich getCat : String → String) (readResult : Except String Df)
    (ioResult : Except String Unit) (name t : String) (df : Df) :
    (detect_format df.cols = "amex" ∨ detect_format df.cols = "chase" ∨
      detect_format df.cols = "bilt" ∨ detect_format df.cols = "capone" ∨
      detect_format df.cols = "unknown") ∧
    (detect_format df.cols ≠ "unknown" →
      normalize kws enrich getCat df (detect_format df.cols) ≠
        .error (.unsupported t)) ∧
    (process_csv kws enrich getCat readResult ioResult name ≠
      .error (.normError (.unsupported t))) := by
  have hnorm : ∀ (df2 : Df), detect_format df2.cols ≠ "unknown" →
      normalize kws enrich getCat df2 (detect_format df2.cols) ≠
        .error (.unsupported t) := by
    intro df2 hu hcontra
    have hs : detect_format df2.cols = "amex" ∨
        detect_format df2.cols = "chase" ∨
        detect_format df2.cols = "bilt" ∨
        detect_format df2.cols = "capone" := by
      rcases detect_format_cases df2.cols with h | h | h | h | h
      · exact Or.inl h
      · exact Or.inr (Or.inl h)
      · exact Or.inr (Or.inr (Or.inl h))
      · exact Or.inr (Or.inr (Or.inr h))
      · exact absurd h hu
    exact normalize_err_shape kws enrich getCat df2 _ hs _ hcontra t rfl
  refine ⟨detect_format_cases df.cols, hnorm df, ?_⟩
  intro hcontra
  unfold process_csv at hcontra
  cases readResult with
  | error m => simp at hcontra
  | ok df2 =>
    dsimp only at hcontra
    by_cases hu : detect_format df2.cols = "unknown"
    · rw [if_pos hu] at hcontra; cases hcontra
    · rw [if_neg hu] at hcontra
      cases hn : normalize kws enrich getCat df2 (detect_format df2.cols) with
      | error e =>
        rw [hn] at hcontra
        simp at hcontra
        rw [hcontra] at hn
        exact hnorm df2 hu hn
      | ok out =>
        rw [hn] at hcontra
        cases ioResult with
        | error m => simp at hcontra
        | ok u => simp at hcontra

/-- Witness for C10 at a concrete capone-style dataframe. -/
theorem c10_unsupported_unreachable_witness :
    normalize [] id id
      ⟨["Description", "Posted Date", "Card No.", "Debit", "Credit"], []⟩
      (detect_format
        ["Description", "Posted Date", "Card No.", "Debit", "Credit"]) ≠
      .error (.unsupported "capone") :=
  (c10_unsupported_unreachable [] id id (.error "unused") (.ok ())
    "jan.csv" "capone"
    ⟨["Description", "Posted Date", "Card No.", "Debit", "Credit"], []⟩).2.1
    (by decide)

end FinSight
